import Mathlib

/-!
Shallow embedding of the device-interaction and power-scheduling logic of
`src/EXAMPLE/knx_iot_example_dev.c` and `src/EXAMPLE/knx_iot_sleepy_main.c`
(Cascoda knx-iot-example), compiled with `SLEEPY` defined (the sleepy main is
the one in the repository).

Global mutable state touched by the embedded functions is collected in a
`DevState` record; side effects on external collaborators (the oc/KNX stack,
the OpenThread stack, the devboard HAL) are emitted as an ordered trace of
`Action`s, each paired with the snapshot of `DevState` at the moment the
effect is issued.
-/

namespace KnxDev

/-- Values of `enum ImplementationDefinedParameters`
    (knx_iot_example_dev.c, lines 118-130). -/
def RESET_HOLD_AND_LONG_PRESS_THRESHOLD_MS : Nat := 3000

def PROGRAMMING_MODE_INDICATOR_FLASHING_PERIOD_MS : Nat := 1000

def RESET_VALUE : Nat := 2

def RESET_INDICATOR_FLICKER_COUNT : Nat := 5

def RESET_KNX_INDICATOR_FLICKER_PERIOD_MS : Nat := 300

def RESET_THREAD_INDICATOR_FLICKER_PERIOD_MS : Nat := 600

/-- Mirrors `#define SCHEDULE_NOW 0` -/
def SCHEDULE_NOW : Nat := 0

/-- Modelled from the spec: the devboard pin identifiers `DEV_SWITCH_1` ..
    `DEV_SWITCH_4` come from the external `devboard_btn.h` header (a hardware
    collaborator, not part of this repository); only their pairwise
    distinctness matters here, so they are embedded as distinct naturals. -/
def DEV_SWITCH_1 : Nat := 0

def DEV_SWITCH_2 : Nat := 1

def DEV_SWITCH_3 : Nat := 2

def DEV_SWITCH_4 : Nat := 3

def LSSB_BUTTON : Nat := DEV_SWITCH_1

def LSAB_LED : Nat := DEV_SWITCH_2

def PROGRAMMING_MODE_INDICATOR : Nat := DEV_SWITCH_3

def TRIGGER_FOR_PROGRAMMING_MODE_AND_RESET : Nat := DEV_SWITCH_4

/-- Mirrors `enum reset_button_state`: KNX_RESET = 0, THREAD_RESET = 1,
    IGNORE_FURTHER_ACTION = 2.  The C global `g_reset_state` is incremented
    with `++`, so it is embedded as a `Nat` carrying those values. -/
def KNX_RESET : Nat := 0

def THREAD_RESET : Nat := 1

def IGNORE_FURTHER_ACTION : Nat := 2

/-- The mutable state the embedded functions read and write:
    the reset-procedure stage, the programming-mode flag held by the oc/KNX
    device layer, the armed/disarmed status of the two tasklets, the static
    `state_snapshot` context passed to the reset-feedback tasklet, the
    programming-mode indicator LED, and the OpenThread link-mode rx-on flag. -/
structure DevState where
  resetState : Nat
  progMode : Bool
  progTaskletQueued : Bool
  resetTaskletQueued : Bool
  resetTaskletCtx : Nat
  led : Bool
  rxOnWhenIdle : Bool
deriving Repr, DecidableEq

/-- External side effects issued by the embedded functions, in program order. -/
inductive Action where
  | setLinkMode (rxOnWhenIdle : Bool)
  | setProgrammingMode (b : Bool)
  | cancelProgTasklet
  | scheduleProgTasklet (delta : Nat)
  | scheduleResetTasklet (delta : Nat) (ctx : Nat)
  | setLED (led : Nat) (state : Bool)
  | publishService
  | ocResetDevice (value : Nat)
  | eraseJoinerCredentials
  | bspSystemReset
deriving Repr, DecidableEq

/-- A trace entry: the emitted effect together with the `DevState` in force
    at the moment it is emitted (state updates from earlier statements of the
    same function already applied). -/
abbrev Trace := List (Action × DevState)

/-- Mirrors `exit_programming_mode` (knx_iot_example_dev.c, lines 345-357), with
    `SLEEPY` defined: clear the OpenThread rx-on-when-idle link mode, clear
    the programming-mode flag, cancel the flicker tasklet, force the
    indicator LED off, republish the discovery record. -/
def exit_programming_mode (s : DevState) : DevState × Trace :=
  let s1 := { s with rxOnWhenIdle := false }
  let s2 := { s1 with progMode := false }
  let s3 := { s2 with progTaskletQueued := false }
  let s4 := { s3 with led := false }
  (s4,
   [(Action.setLinkMode false, s1),
    (Action.setProgrammingMode false, s2),
    (Action.cancelProgTasklet, s3),
    (Action.setLED PROGRAMMING_MODE_INDICATOR false, s4),
    (Action.publishService, s4)])

/-- Mirrors `enter_programming_mode` (knx_iot_example_dev.c, lines 365-376), with
    `SLEEPY` defined: set rx-on-when-idle, set the programming-mode flag,
    schedule the flicker tasklet immediately, republish discovery. -/
def enter_programming_mode (s : DevState) : DevState × Trace :=
  let s1 := { s with rxOnWhenIdle := true }
  let s2 := { s1 with progMode := true }
  let s3 := { s2 with progTaskletQueued := true }
  (s3,
   [(Action.setLinkMode true, s1),
    (Action.setProgrammingMode true, s2),
    (Action.scheduleProgTasklet SCHEDULE_NOW, s3),
    (Action.publishService, s3)])

/-- Mirrors `programming_mode_embedded` (knx_iot_example_dev.c, lines 402-415):
    requesting the mode the device is already in returns immediately;
    otherwise dispatch to enter/exit. -/
def programming_mode_embedded (s : DevState) (programming_mode : Bool) :
    DevState × Trace :=
  if programming_mode = s.progMode then (s, [])
  else if programming_mode then enter_programming_mode s
  else exit_programming_mode s

/-- Mirrors `reset_hold_cb` (knx_iot_example_dev.c, lines 210-254): switch on
    `g_reset_state`; the `KNX_RESET` arm exits programming mode when active,
    resets the KNX device, schedules the feedback tasklet with snapshot
    context `KNX_RESET` and republishes; the `THREAD_RESET` arm erases the
    Thread joiner credentials and schedules feedback with context
    `THREAD_RESET`; `IGNORE_FURTHER_ACTION` returns before the trailing
    `++g_reset_state`; any other value falls through the switch to the
    increment. -/
def reset_hold_cb (s : DevState) : DevState × Trace :=
  match s.resetState with
  | 0 =>
    let (s1, t1) := if s.progMode then exit_programming_mode s else (s, [])
    let s2 := { s1 with resetTaskletQueued := true, resetTaskletCtx := KNX_RESET }
    ({ s2 with resetState := s2.resetState + 1 },
     t1 ++
      [(Action.ocResetDevice RESET_VALUE, s1),
       (Action.scheduleResetTasklet SCHEDULE_NOW KNX_RESET, s2),
       (Action.publishService, s2)])
  | 1 =>
    let s1 := { s with resetTaskletQueued := true, resetTaskletCtx := THREAD_RESET }
    ({ s1 with resetState := s1.resetState + 1 },
     [(Action.eraseJoinerCredentials, s),
      (Action.scheduleResetTasklet SCHEDULE_NOW THREAD_RESET, s1)])
  | 2 => (s, [])
  | _ + 3 => ({ s with resetState := s.resetState + 1 }, [])

/-- Mirrors `reset_long_press_cb` (knx_iot_example_dev.c, lines 261-266):
    unconditionally set `g_reset_state = KNX_RESET`. -/
def reset_long_press_cb (s : DevState) : DevState × Trace :=
  ({ s with resetState := KNX_RESET }, [])

/-- Mirrors `reset_done_feedback` (knx_iot_example_dev.c, lines 289-320).  The static
    `count` (a `uint8_t`) is threaded explicitly; `context` is the scheduled
    reset type.  `count++ < RESET_INDICATOR_FLICKER_COUNT` compares the old
    value and increments (the wrap of the `uint8_t` increment is kept,
    although the reachable values never wrap).  While counting, the LED is
    toggled from its sensed state and the tasklet reschedules itself at half
    the per-type flicker period; on the final iteration the count restarts,
    the LED is forced off, and a Thread reset additionally reboots. -/
def reset_done_feedback (count : Nat) (reset_type : Nat) (s : DevState) :
    Nat × DevState × Trace :=
  if count < RESET_INDICATOR_FLICKER_COUNT then
    let count := (count + 1) % 256
    let s1 := { s with led := !s.led }
    if reset_type = KNX_RESET then
      let s2 := { s1 with resetTaskletQueued := true }
      (count, s2,
       [(Action.setLED PROGRAMMING_MODE_INDICATOR (!s.led), s1),
        (Action.scheduleResetTasklet (RESET_KNX_INDICATOR_FLICKER_PERIOD_MS / 2)
          reset_type, s2)])
    else if reset_type = THREAD_RESET then
      let s2 := { s1 with resetTaskletQueued := true }
      (count, s2,
       [(Action.setLED PROGRAMMING_MODE_INDICATOR (!s.led), s1),
        (Action.scheduleResetTasklet (RESET_THREAD_INDICATOR_FLICKER_PERIOD_MS / 2)
          reset_type, s2)])
    else
      (count, s1, [(Action.setLED PROGRAMMING_MODE_INDICATOR (!s.led), s1)])
  else
    let s1 := { s with led := false }
    if reset_type = THREAD_RESET then
      (0, s1,
       [(Action.setLED PROGRAMMING_MODE_INDICATOR false, s1),
        (Action.bspSystemReset, s1)])
    else
      (0, s1, [(Action.setLED PROGRAMMING_MODE_INDICATOR false, s1)])

/-- Registration-time effects issued by the initialisation functions. -/
inductive InitAction where
  | taskletInitResetDone
  | taskletInitProgMode
  | registerButtonIRQInput (btn : Nat)
  | registerLEDOutput (led : Nat)
  | setShortPressCallback (btn : Nat)
  | setHoldCallback (btn : Nat) (thresholdMs : Nat)
  | setLongPressCallback (btn : Nat) (thresholdMs : Nat)
deriving Repr, DecidableEq

/-- Mirrors `reset_init` (knx_iot_example_dev.c, lines 273-281): initialise the
    feedback tasklet and register the hold and long-press callbacks on the
    reset button, both with `RESET_HOLD_AND_LONG_PRESS_THRESHOLD_MS`. -/
def reset_init (reset_button : Nat) : List InitAction :=
  [InitAction.taskletInitResetDone,
   InitAction.setHoldCallback reset_button RESET_HOLD_AND_LONG_PRESS_THRESHOLD_MS,
   InitAction.setLongPressCallback reset_button
     RESET_HOLD_AND_LONG_PRESS_THRESHOLD_MS]

/-- Mirrors `programming_mode_init` (knx_iot_example_dev.c, lines 445-465), with
    `SLEEPY` defined: if the flashing LED and the programming-mode button
    alias the same pin, return without installing anything; otherwise
    initialise the flicker tasklet, register the button (IRQ input) and the
    LED, and install the short-press callback. -/
def programming_mode_init (flashing_led program_mode_button : Nat) :
    List InitAction :=
  if flashing_led = program_mode_button then []
  else
    [InitAction.taskletInitProgMode,
     InitAction.registerButtonIRQInput program_mode_button,
     InitAction.registerLEDOutput flashing_led,
     InitAction.setShortPressCallback program_mode_button]

/-- The hold threshold `reset_init` registers for a button, read back from
    its emitted registrations (0 if none). -/
def registeredHoldThreshold (btn : Nat) : Nat :=
  (reset_init btn).foldl
    (fun acc a =>
      match a with
      | InitAction.setHoldCallback _ ms => ms
      | _ => acc) 0

/-- The long-press threshold `reset_init` registers for a button, read back
    from its emitted registrations (0 if none). -/
def registeredLongPressThreshold (btn : Nat) : Nat :=
  (reset_init btn).foldl
    (fun acc a =>
      match a with
      | InitAction.setLongPressCallback _ ms => ms
      | _ => acc) 0

/-!
Sleep arbiter.

`sleep_if_possible` lives in `knx_iot_sleepy_main.c` (lines 199-215);
`hardware_can_sleep` and `hardware_sleep` in `knx_iot_example_dev.c`
(lines 510-544, `SLEEPY` defined).  The environment the arbiter reads —
collaborator predicates, the monotonic clock, the tasklet queue, and the
externally defined constants `SED_POLL_PERIOD` / `SED_MIN_AWAKE_TIME` (their
values come from a header outside this repository) — is a `SleepEnv` record.
-/

structure SleepEnv where
  /-- Mirrors `PlatformCanSleep(OT_INSTANCE)` -/
  platformCanSleep : Bool
  /-- Mirrors `DVBD_CanSleep()` -/
  dvbdCanSleep : Bool
  /-- Mirrors `oc_knx_device_in_programming_mode(THIS_DEVICE)` -/
  progMode : Bool
  /-- whether `otThreadGetDeviceRole(OT_INSTANCE) == OT_DEVICE_ROLE_DETACHED` -/
  roleDetached : Bool
  /-- Mirrors `TIME_ReadAbsoluteTime()` at the arbitration point -/
  now : Nat
  /-- Mirrors `g_time_of_last_wake` -/
  timeOfLastWake : Nat
  /-- Mirrors `SED_POLL_PERIOD` (external header constant) -/
  sedPollPeriod : Nat
  /-- Mirrors `SED_MIN_AWAKE_TIME` (external header constant) -/
  sedMinAwakeTime : Nat
  /-- time remaining on `g_sed_poll_tasklet` when queued, `none` otherwise
      (`TASKLET_IsQueued`) -/
  sedPollDelta : Option Nat
  /-- times remaining on the other queued tasklets -/
  otherTaskletDeltas : List Nat
deriving Repr, DecidableEq

/-- Mirrors `hardware_can_sleep` (knx_iot_example_dev.c, lines 510-517), with
    `SLEEPY` defined: the devboard can sleep and the device is not in
    programming mode. -/
def hardware_can_sleep (e : SleepEnv) : Bool :=
  e.dvbdCanSleep && !e.progMode

/-- Outcome of one `hardware_sleep` call: the poll-tasklet delta after the
    conditional re-arm (this is the queue state in force at any
    `DVBD_DevboardSleep` call), and the sleep duration when the device does
    suspend. -/
structure SleepOutcome where
  sedPollDelta : Option Nat
  slept : Option Nat
deriving Repr, DecidableEq

/-- Mirrors `TIME_Cmp(now, g_time_of_last_wake + SED_MIN_AWAKE_TIME) >= 0`
    (the external `cascoda_time` comparator applied to the monotonic clock):
    the current time has reached the last wake plus the minimum awake time. -/
def has_min_awake_time_passed (e : SleepEnv) : Bool :=
  e.timeOfLastWake + e.sedMinAwakeTime ≤ e.now

/-- Mirrors `has_min_awake_time_passed || (otThreadGetDeviceRole(OT_INSTANCE) !=
    OT_DEVICE_ROLE_DETACHED)` (knx_iot_example_dev.c, line 535). -/
def sleep_after_joining (e : SleepEnv) : Bool :=
  has_min_awake_time_passed e || !e.roleDetached

/-- The remaining time on `g_sed_poll_tasklet` after the conditional re-arm
    at the top of `hardware_sleep`: `SED_POLL_PERIOD` when the tasklet was
    not queued (`TASKLET_ScheduleDelta(&g_sed_poll_tasklet, SED_POLL_PERIOD,
    NULL)`), its current remaining time otherwise. -/
def sed_poll_delta_after (e : SleepEnv) : Nat :=
  match e.sedPollDelta with
  | none => e.sedPollPeriod
  | some d => d

/-- Mirrors `TASKLET_GetTimeToNext(&taskletTimeLeft)` after the re-arm: the minimum
    remaining time over all queued tasklets (the data-poll tasklet is queued
    by this point). -/
def tasklet_time_left (e : SleepEnv) : Nat :=
  e.otherTaskletDeltas.foldl Nat.min (sed_poll_delta_after e)

/-- Mirrors `if (taskletTimeLeft > nextAppEvent) taskletTimeLeft = nextAppEvent;` -/
def clamped_time_left (e : SleepEnv) (nextAppEvent : Nat) : Nat :=
  if nextAppEvent < tasklet_time_left e then nextAppEvent
  else tasklet_time_left e

/-- Mirrors `hardware_sleep` (knx_iot_example_dev.c, lines 520-544): re-arm the SED
    data-poll tasklet at `SED_POLL_PERIOD` when it is not queued; read the
    time to the nearest queued tasklet (`TASKLET_GetTimeToNext`); clamp it to
    `nextAppEvent`; suspend via `DVBD_DevboardSleep` for that long when it
    exceeds 100 ms and `sleep_after_joining` holds. -/
def hardware_sleep (e : SleepEnv) (nextAppEvent : Nat) : SleepOutcome :=
  if 100 < clamped_time_left e nextAppEvent ∧ sleep_after_joining e = true then
    { sedPollDelta := some (sed_poll_delta_after e),
      slept := some (clamped_time_left e nextAppEvent) }
  else
    { sedPollDelta := some (sed_poll_delta_after e), slept := none }

/-- Mirrors `sleep_if_possible` (knx_iot_sleepy_main.c, lines 199-215): truncate the
    64-bit `timeToNextAppEvent` to `uint32_t`, saturating to `0x7FFFFFFF`
    when it exceeds that or is zero; return without sleeping when the
    OpenThread platform cannot sleep or `hardware_can_sleep` is false;
    otherwise call `hardware_sleep`.  `none` means `hardware_sleep` was never
    called. -/
def sleep_if_possible (e : SleepEnv) (timeToNextAppEvent : Nat) :
    Option SleepOutcome :=
  let nextAppEvent := timeToNextAppEvent % 2 ^ 32
  let nextAppEvent :=
    if 0x7FFFFFFF < timeToNextAppEvent ∨ timeToNextAppEvent = 0 then 0x7FFFFFFF
    else nextAppEvent
  if !e.platformCanSleep then none
  else if !hardware_can_sleep e then none
  else some (hardware_sleep e nextAppEvent)

/-!
Embedding of `app_is_url_in_use`.

(knx_iot_example_dev.c, lines 602-618.)  The C loop is
`for (index = 0; index++; index < table_size)`: the middle expression is the
loop condition, so each round tests the old value of `index` and increments
it; `index < table_size` sits in the step position and is evaluated, effect
free, after a body run.  The loop is embedded fuel-recursively with exactly
that shape; the group object table is a list of the urls
`oc_core_find_group_object_table_url_from_index` would return (an
out-of-range read yields the empty string, matching `oc_string_len == 0`). -/

def url_loop (url : String) (table : List String) : Nat → Nat → Bool
  | 0, _ => false
  | fuel + 1, index =>
    -- loop condition `index++`: test the old value, then increment
    if index ≠ 0 then
      let index := index + 1
      let oc_str := table.getD index ""
      if 0 < oc_str.length ∧ url = oc_str then true
      else url_loop url table fuel index
    else false

/-- Mirrors `app_is_url_in_use`: run the loop from `index = 0`.  The fuel bound is
    immaterial: the first condition test already fails. -/
def app_is_url_in_use (url : String) (table : List String) : Bool :=
  url_loop url table (table.length + 1) 0

/-!
Sample states used by witnesses.
-/

/-- A concrete boot-like device state: reset stage `KNX_RESET`, programming
    mode inactive, no tasklet armed, LED off. -/
def bootState : DevState :=
  { resetState := KNX_RESET, progMode := false, progTaskletQueued := false,
    resetTaskletQueued := false, resetTaskletCtx := 0, led := false,
    rxOnWhenIdle := false }

/-- A concrete device state in programming mode (flicker armed, LED on),
    reset stage `KNX_RESET`. -/
def progModeState : DevState :=
  { resetState := KNX_RESET, progMode := true, progTaskletQueued := true,
    resetTaskletQueued := false, resetTaskletCtx := 0, led := true,
    rxOnWhenIdle := true }

/-- A concrete sleep environment in which the platform refuses to sleep. -/
def envPlatformBusy : SleepEnv :=
  { platformCanSleep := false, dvbdCanSleep := true, progMode := false,
    roleDetached := false, now := 2000, timeOfLastWake := 0,
    sedPollPeriod := 10000, sedMinAwakeTime := 500, sedPollDelta := none,
    otherTaskletDeltas := [] }

/-- A concrete sleep environment: freshly woken (minimum awake time not yet
    elapsed) but attached to a Thread network (role not detached). -/
def envFreshWake : SleepEnv :=
  { platformCanSleep := true, dvbdCanSleep := true, progMode := false,
    roleDetached := false, now := 0, timeOfLastWake := 0,
    sedPollPeriod := 10000, sedMinAwakeTime := 1000, sedPollDelta := none,
    otherTaskletDeltas := [] }

/-- A concrete sleep environment with the minimum awake time elapsed and a
    competing tasklet due in 200 ms. -/
def envWithTasklet : SleepEnv :=
  { platformCanSleep := true, dvbdCanSleep := true, progMode := false,
    roleDetached := false, now := 5000, timeOfLastWake := 0,
    sedPollPeriod := 10000, sedMinAwakeTime := 1000, sedPollDelta := none,
    otherTaskletDeltas := [200] }

end KnxDev

namespace KnxDev

/-!
Claims.
-/

/-- Claim **C10**: `app_is_url_in_use` returns `false` for every url and every
    group object table, because the for-loop condition is the post-increment
    expression `index++`, which evaluates to 0 on its first test, so the body
    comparing the url against table entries never executes. -/
theorem C10_app_is_url_in_use_always_false (url : String)
    (table : List String) : app_is_url_in_use url table = false := by
  simp [app_is_url_in_use, url_loop]

/-- Claim **C7, counterexample**: the long-press (re-arm) threshold registered by
    `reset_init` for the reset button is NOT strictly longer than the hold
    (advance) threshold — both are the single constant
    `RESET_HOLD_AND_LONG_PRESS_THRESHOLD_MS` (3000 ms). -/
theorem C7_counterexample :
    ¬ (registeredHoldThreshold TRIGGER_FOR_PROGRAMMING_MODE_AND_RESET <
        registeredLongPressThreshold TRIGGER_FOR_PROGRAMMING_MODE_AND_RESET) := by
  decide

/-- Claim **C7, amended**: `reset_init` registers the long-press (re-arm) and hold
    (advance) callbacks with equal thresholds, both
    `RESET_HOLD_AND_LONG_PRESS_THRESHOLD_MS` = 3000 ms, for every button. -/
theorem C7_thresholds_equal (btn : Nat) :
    registeredLongPressThreshold btn = registeredHoldThreshold btn ∧
    registeredHoldThreshold btn = RESET_HOLD_AND_LONG_PRESS_THRESHOLD_MS := by
  simp [registeredLongPressThreshold, registeredHoldThreshold, reset_init]

/-- Claim **C8**: requesting the programming mode the device is already in via
    `programming_mode_embedded` is a no-op (state unchanged, no effect
    emitted), and `enter; exit; enter` leaves the same observable state
    (mode active, flicker tasklet armed) as a single `enter`. -/
theorem C8_prog_mode_idempotent (s : DevState) :
    programming_mode_embedded s s.progMode = (s, []) ∧
    ((enter_programming_mode
        ((exit_programming_mode (enter_programming_mode s).1).1)).1.progMode,
      (enter_programming_mode
        ((exit_programming_mode
          (enter_programming_mode s).1).1)).1.progTaskletQueued) =
      ((enter_programming_mode s).1.progMode,
        (enter_programming_mode s).1.progTaskletQueued) := by
  constructor
  · simp [programming_mode_embedded]
  · simp [enter_programming_mode, exit_programming_mode]

/-- Claim **C2**: `sleep_if_possible` returns without calling `hardware_sleep`
    whenever the OpenThread platform cannot sleep or `hardware_can_sleep`
    is false, for every next-app-event bound and every scheduler state; and
    `hardware_can_sleep` is false whenever programming mode is active. -/
theorem C2_no_sleep_when_blocked (e : SleepEnv) (t : Nat)
    (h : e.platformCanSleep = false ∨ hardware_can_sleep e = false) :
    sleep_if_possible e t = none ∧
    (e.progMode = true → hardware_can_sleep e = false) := by
  refine ⟨?_, ?_⟩
  · rcases h with h | h <;> simp [sleep_if_possible, h]
  · intro hp
    simp [hardware_can_sleep, hp]

/-- Claim **C2, witness**: instantiated at `envPlatformBusy` and bound 5. -/
theorem C2_witness :
    sleep_if_possible envPlatformBusy 5 = none ∧
    (envPlatformBusy.progMode = true →
      hardware_can_sleep envPlatformBusy = false) :=
  C2_no_sleep_when_blocked envPlatformBusy 5 (Or.inl rfl)

/-- Claim **C3, counterexample**: `hardware_sleep` does suspend (for 5000 ms) in
    the environment `envFreshWake`, although the minimum awake time has not
    elapsed since the last wake — the role-not-detached disjunct of
    `sleep_after_joining` lets it through, so minimum awake time is not a
    required conjunct of sleep eligibility. -/
theorem C3_counterexample :
    (hardware_sleep envFreshWake 5000).slept = some 5000 ∧
    has_min_awake_time_passed envFreshWake = false := by
  decide

/-- Claim **C3, amended**: whenever `hardware_sleep` suspends, the minimum awake
    time has elapsed since the last wake OR the Thread role is not Detached
    (the two sides of the `sleep_after_joining` disjunction). -/
theorem C3_sleep_requires_min_awake_or_attached (e : SleepEnv) (n d : Nat)
    (h : (hardware_sleep e n).slept = some d) :
    has_min_awake_time_passed e = true ∨ e.roleDetached = false := by
  by_contra hc
  push_neg at hc
  obtain ⟨h1, h2⟩ := hc
  have hmin : has_min_awake_time_passed e = false := by
    cases hq : has_min_awake_time_passed e
    · rfl
    · exact absurd hq h1
  have hrole : e.roleDetached = true := by
    cases hq : e.roleDetached
    · exact absurd hq h2
    · rfl
  have hsaj : sleep_after_joining e = false := by
    simp [sleep_after_joining, hmin, hrole]
  simp [hardware_sleep, hsaj] at h

/-- Claim **C3, witness**: instantiated at `envFreshWake`, which suspends for
    5000 ms at bound 5000. -/
theorem C3_witness :
    has_min_awake_time_passed envFreshWake = true ∨
    envFreshWake.roleDetached = false :=
  C3_sleep_requires_min_awake_or_attached envFreshWake 5000 5000 (by decide)

/-- Helper: `List.foldl Nat.min` is bounded by its initial accumulator. -/
theorem foldl_min_le_init (l : List Nat) (a : Nat) :
    l.foldl Nat.min a ≤ a := by
  induction l generalizing a with
  | nil => exact Nat.le_refl a
  | cons x xs ih =>
    calc xs.foldl Nat.min (Nat.min a x) ≤ Nat.min a x := ih (Nat.min a x)
      _ ≤ a := Nat.min_le_left a x

/-- Helper: `List.foldl Nat.min` is bounded by every list element. -/
theorem foldl_min_le_mem (l : List Nat) (a t : Nat) (ht : t ∈ l) :
    l.foldl Nat.min a ≤ t := by
  induction l generalizing a with
  | nil => cases ht
  | cons x xs ih =>
    rcases List.mem_cons.mp ht with h | h
    · subst h
      calc xs.foldl Nat.min (Nat.min a t) ≤ Nat.min a t :=
            foldl_min_le_init xs (Nat.min a t)
        _ ≤ t := Nat.min_le_right a t
    · exact ih (Nat.min a x) h

/-- Claim **C4**: whenever `hardware_sleep` suspends, the keep-alive data-poll
    tasklet is queued at the suspend call, and the sleep duration is at most
    the caller-supplied next-app-event bound, at most the queued poll
    tasklet's remaining time, and at most every other queued tasklet's
    remaining time — i.e. at most the time to the next queued tasklet. -/
theorem C4_sleep_clamped (e : SleepEnv) (n d : Nat)
    (h : (hardware_sleep e n).slept = some d) :
    (hardware_sleep e n).sedPollDelta ≠ none ∧
    d ≤ n ∧
    (∀ p, (hardware_sleep e n).sedPollDelta = some p → d ≤ p) ∧
    (∀ t ∈ e.otherTaskletDeltas, d ≤ t) := by
  have hclamp_ttl : clamped_time_left e n ≤ tasklet_time_left e := by
    unfold clamped_time_left
    by_cases hlt : n < tasklet_time_left e
    · rw [if_pos hlt]
      exact Nat.le_of_lt hlt
    · rw [if_neg hlt]
  have hclamp_n : clamped_time_left e n ≤ n := by
    unfold clamped_time_left
    by_cases hlt : n < tasklet_time_left e
    · rw [if_pos hlt]
    · rw [if_neg hlt]
      exact Nat.le_of_not_lt hlt
  unfold hardware_sleep at h
  by_cases hcond :
      100 < clamped_time_left e n ∧ sleep_after_joining e = true
  · rw [if_pos hcond] at h
    have hd : clamped_time_left e n = d := by simpa using h
    refine ⟨?_, hd ▸ hclamp_n, ?_, ?_⟩
    · simp only [hardware_sleep]
      split <;> simp
    · intro p hp
      have hp2 : p = sed_poll_delta_after e := by
        unfold hardware_sleep at hp
        by_cases hc2 :
            100 < clamped_time_left e n ∧ sleep_after_joining e = true
        · rw [if_pos hc2] at hp
          simpa using hp.symm
        · rw [if_neg hc2] at hp
          simpa using hp.symm
      rw [hp2, ← hd]
      exact Nat.le_trans hclamp_ttl (foldl_min_le_init _ _)
    · intro t htm
      rw [← hd]
      exact Nat.le_trans hclamp_ttl (foldl_min_le_mem _ _ _ htm)
  · rw [if_neg hcond] at h
    simp at h

/-- Claim **C4, witness**: instantiated at `envWithTasklet` and bound 5000, where
    the device suspends for 200 ms (the competing tasklet's deadline). -/
theorem C4_witness :
    (hardware_sleep envWithTasklet 5000).sedPollDelta ≠ none ∧
    200 ≤ 5000 ∧
    (∀ p, (hardware_sleep envWithTasklet 5000).sedPollDelta = some p →
      200 ≤ p) ∧
    (∀ t ∈ envWithTasklet.otherTaskletDeltas, 200 ≤ t) :=
  C4_sleep_clamped envWithTasklet 5000 200 (by decide)

/-- Claim **C1**: starting from `NetworkReset` (`KNX_RESET`), the first hold event
    performs the network reset and advances to `LinkReset`; the second
    performs the Thread (link) reset and advances to `Ignore`; at `Ignore`
    every hold event is a no-op leaving the state unchanged; holds never
    decrease the state; and a long-press sets the state to `NetworkReset`
    unconditionally. -/
theorem C1_reset_state_machine (s : DevState) (h : s.resetState = KNX_RESET) :
    ((reset_hold_cb s).1.resetState = THREAD_RESET ∧
      ∃ p ∈ (reset_hold_cb s).2, p.1 = Action.ocResetDevice RESET_VALUE) ∧
    ((reset_hold_cb (reset_hold_cb s).1).1.resetState =
        IGNORE_FURTHER_ACTION ∧
      ∃ p ∈ (reset_hold_cb (reset_hold_cb s).1).2,
        p.1 = Action.eraseJoinerCredentials) ∧
    (∀ s2 : DevState, s2.resetState = IGNORE_FURTHER_ACTION →
      reset_hold_cb s2 = (s2, [])) ∧
    (∀ s2 : DevState, s2.resetState ≤ (reset_hold_cb s2).1.resetState) ∧
    (∀ s2 : DevState,
      reset_long_press_cb s2 = ({ s2 with resetState := KNX_RESET }, [])) := by
  have hfst : (reset_hold_cb s).1.resetState = 1 := by
    cases hp : s.progMode <;>
      simp [reset_hold_cb, h, KNX_RESET, hp, exit_programming_mode]
  have hoc : ∃ p ∈ (reset_hold_cb s).2,
      p.1 = Action.ocResetDevice RESET_VALUE := by
    cases hp : s.progMode <;>
      simp [reset_hold_cb, h, KNX_RESET, RESET_VALUE, hp,
        exit_programming_mode]
  have hsnd : (reset_hold_cb (reset_hold_cb s).1).1.resetState =
      IGNORE_FURTHER_ACTION ∧
      ∃ p ∈ (reset_hold_cb (reset_hold_cb s).1).2,
        p.1 = Action.eraseJoinerCredentials := by
    set s1 := (reset_hold_cb s).1 with hs1
    constructor
    · simp [reset_hold_cb, hfst, IGNORE_FURTHER_ACTION]
    · simp [reset_hold_cb, hfst]
  refine ⟨⟨hfst, hoc⟩, hsnd, ?_, ?_, ?_⟩
  · intro s2 h2
    simp [reset_hold_cb, h2, IGNORE_FURTHER_ACTION]
  · intro s2
    rcases h2 : s2.resetState with _ | _ | _ | n <;>
      · cases hp : s2.progMode <;>
          simp [reset_hold_cb, h2, hp, exit_programming_mode]
  · intro s2
    simp [reset_long_press_cb]

/-- Claim **C1, witness**: instantiated at the concrete boot state. -/
theorem C1_witness :
    bootState.resetState = KNX_RESET ∧
    (((reset_hold_cb bootState).1.resetState = THREAD_RESET ∧
      ∃ p ∈ (reset_hold_cb bootState).2,
        p.1 = Action.ocResetDevice RESET_VALUE) ∧
    ((reset_hold_cb (reset_hold_cb bootState).1).1.resetState =
        IGNORE_FURTHER_ACTION ∧
      ∃ p ∈ (reset_hold_cb (reset_hold_cb bootState).1).2,
        p.1 = Action.eraseJoinerCredentials) ∧
    (∀ s2 : DevState, s2.resetState = IGNORE_FURTHER_ACTION →
      reset_hold_cb s2 = (s2, [])) ∧
    (∀ s2 : DevState, s2.resetState ≤ (reset_hold_cb s2).1.resetState) ∧
    (∀ s2 : DevState,
      reset_long_press_cb s2 = ({ s2 with resetState := KNX_RESET }, []))) :=
  ⟨rfl, C1_reset_state_machine bootState rfl⟩

/-- Claim **C5**: under the invariant that the flicker tasklet is armed only in
    programming mode, every `ocResetDevice` effect emitted by the
    `NetworkReset` stage of `reset_hold_cb` is issued in a state with the
    programming-mode flag cleared and the flicker tasklet disarmed; and when
    programming mode is active on entry, the full trace shows the
    programming-mode exit (including `cancelProgTasklet`) strictly before
    `ocResetDevice`. -/
theorem C5_exit_prog_mode_before_reset (s : DevState)
    (h : s.resetState = KNX_RESET)
    (hInv : s.progTaskletQueued = true → s.progMode = true) :
    (∀ p ∈ (reset_hold_cb s).2, p.1 = Action.ocResetDevice RESET_VALUE →
      p.2.progMode = false ∧ p.2.progTaskletQueued = false) ∧
    (s.progMode = true →
      (reset_hold_cb s).2.map Prod.fst =
        [Action.setLinkMode false, Action.setProgrammingMode false,
         Action.cancelProgTasklet,
         Action.setLED PROGRAMMING_MODE_INDICATOR false,
         Action.publishService,
         Action.ocResetDevice RESET_VALUE,
         Action.scheduleResetTasklet SCHEDULE_NOW KNX_RESET,
         Action.publishService]) := by
  cases hp : s.progMode
  · have hq : s.progTaskletQueued = false := by
      cases hq2 : s.progTaskletQueued
      · rfl
      · exact absurd (hInv hq2) (by simp [hp])
    constructor
    · intro p hmem heq
      simp [reset_hold_cb, h, KNX_RESET, hp] at hmem
      rcases hmem with h1 | h1 | h1 <;> subst h1 <;> simp_all
    · intro hc
      exact absurd hc (by simp)
  · constructor
    · intro p hmem heq
      simp [reset_hold_cb, h, KNX_RESET, hp, exit_programming_mode] at hmem
      rcases hmem with h1 | h1 | h1 | h1 | h1 | h1 | h1 | h1 <;> subst h1 <;>
        simp_all
    · intro _
      simp [reset_hold_cb, h, KNX_RESET, hp, exit_programming_mode,
        RESET_VALUE, SCHEDULE_NOW]

/-- Claim **C5, witness**: instantiated at the concrete programming-mode state. -/
theorem C5_witness :
    progModeState.resetState = KNX_RESET ∧
    (progModeState.progTaskletQueued = true → progModeState.progMode = true) ∧
    ((∀ p ∈ (reset_hold_cb progModeState).2,
        p.1 = Action.ocResetDevice RESET_VALUE →
        p.2.progMode = false ∧ p.2.progTaskletQueued = false) ∧
      (progModeState.progMode = true →
        (reset_hold_cb progModeState).2.map Prod.fst =
          [Action.setLinkMode false, Action.setProgrammingMode false,
           Action.cancelProgTasklet,
           Action.setLED PROGRAMMING_MODE_INDICATOR false,
           Action.publishService,
           Action.ocResetDevice RESET_VALUE,
           Action.scheduleResetTasklet SCHEDULE_NOW KNX_RESET,
           Action.publishService])) :=
  ⟨rfl, fun _ => rfl,
    C5_exit_prog_mode_before_reset progModeState rfl (fun _ => rfl)⟩

/-- Claim **C6**: for either reset type, every counting iteration of
    `reset_done_feedback` (old count below `RESET_INDICATOR_FLICKER_COUNT`)
    increments the count, toggles the indicator LED and re-arms the tasklet
    at half the per-type flicker period; the final iteration resets the
    count, forces the LED off regardless of its current state, and issues a
    full device restart exactly when the feedback was for the Thread (link)
    reset. -/
theorem C6_feedback_tasklet (count rt : Nat) (s : DevState)
    (hrt : rt = KNX_RESET ∨ rt = THREAD_RESET) :
    (count < RESET_INDICATOR_FLICKER_COUNT →
      (reset_done_feedback count rt s).1 = count + 1 ∧
      (reset_done_feedback count rt s).2.1.led = !s.led ∧
      (reset_done_feedback count rt s).2.1.resetTaskletQueued = true ∧
      ∃ p ∈ (reset_done_feedback count rt s).2.2,
        p.1 = Action.scheduleResetTasklet
          ((if rt = KNX_RESET then RESET_KNX_INDICATOR_FLICKER_PERIOD_MS
            else RESET_THREAD_INDICATOR_FLICKER_PERIOD_MS) / 2) rt) ∧
    (RESET_INDICATOR_FLICKER_COUNT ≤ count →
      (reset_done_feedback count rt s).1 = 0 ∧
      (reset_done_feedback count rt s).2.1.led = false ∧
      ((∃ p ∈ (reset_done_feedback count rt s).2.2,
          p.1 = Action.bspSystemReset) ↔ rt = THREAD_RESET)) := by
  have hcount : ∀ hc : count < RESET_INDICATOR_FLICKER_COUNT,
      (count + 1) % 256 = count + 1 := by
    intro hc
    have : count < 5 := hc
    exact Nat.mod_eq_of_lt (by omega)
  rcases hrt with hrt | hrt <;> subst hrt <;> constructor
  · intro hc
    simp [reset_done_feedback, hc, KNX_RESET, hcount hc]
  · intro hc
    simp [reset_done_feedback, Nat.not_lt.mpr hc, KNX_RESET, THREAD_RESET]
  · intro hc
    simp [reset_done_feedback, hc, KNX_RESET, THREAD_RESET, hcount hc]
  · intro hc
    simp [reset_done_feedback, Nat.not_lt.mpr hc, KNX_RESET, THREAD_RESET]

/-- Claim **C6, witness**: instantiated at count 0, reset type `THREAD_RESET`, at
    the concrete boot state. -/
theorem C6_witness :
    ((0 : Nat) < RESET_INDICATOR_FLICKER_COUNT →
      (reset_done_feedback 0 THREAD_RESET bootState).1 = 0 + 1 ∧
      (reset_done_feedback 0 THREAD_RESET bootState).2.1.led =
        !bootState.led ∧
      (reset_done_feedback 0 THREAD_RESET bootState).2.1.resetTaskletQueued =
        true ∧
      ∃ p ∈ (reset_done_feedback 0 THREAD_RESET bootState).2.2,
        p.1 = Action.scheduleResetTasklet
          ((if THREAD_RESET = KNX_RESET then
              RESET_KNX_INDICATOR_FLICKER_PERIOD_MS
            else RESET_THREAD_INDICATOR_FLICKER_PERIOD_MS) / 2)
          THREAD_RESET) ∧
    (RESET_INDICATOR_FLICKER_COUNT ≤ 0 →
      (reset_done_feedback 0 THREAD_RESET bootState).1 = 0 ∧
      (reset_done_feedback 0 THREAD_RESET bootState).2.1.led = false ∧
      ((∃ p ∈ (reset_done_feedback 0 THREAD_RESET bootState).2.2,
          p.1 = Action.bspSystemReset) ↔ THREAD_RESET = THREAD_RESET)) :=
  C6_feedback_tasklet 0 THREAD_RESET bootState (Or.inr rfl)

/-- Claim **C9, counterexample**: registering the same physical button for the two
    conflicting roles is NOT absorbed as a no-op: `knx_specific_init` wires
    `TRIGGER_FOR_PROGRAMMING_MODE_AND_RESET` both as the programming-mode
    trigger and as the reset trigger, and both initialisers install their
    callbacks on it — `reset_init` has no configuration-error guard at
    all. -/
theorem C9_counterexample :
    reset_init TRIGGER_FOR_PROGRAMMING_MODE_AND_RESET ≠ [] ∧
    InitAction.setHoldCallback TRIGGER_FOR_PROGRAMMING_MODE_AND_RESET
        RESET_HOLD_AND_LONG_PRESS_THRESHOLD_MS ∈
      reset_init TRIGGER_FOR_PROGRAMMING_MODE_AND_RESET ∧
    InitAction.setShortPressCallback TRIGGER_FOR_PROGRAMMING_MODE_AND_RESET ∈
      programming_mode_init PROGRAMMING_MODE_INDICATOR
        TRIGGER_FOR_PROGRAMMING_MODE_AND_RESET := by
  decide

/-- Claim **C9, amended**: only the LED/button pin-aliasing configuration error is
    absorbed: when the flashing LED and the programming-mode trigger button
    alias the same pin, `programming_mode_init` installs nothing; `reset_init`
    performs no conflicting-role detection and always installs its
    registrations. -/
theorem C9_alias_noop (flashing_led program_mode_button : Nat)
    (h : flashing_led = program_mode_button) :
    programming_mode_init flashing_led program_mode_button = [] ∧
    ∀ btn : Nat, reset_init btn ≠ [] := by
  constructor
  · simp [programming_mode_init, h]
  · intro btn
    simp [reset_init]

/-- Claim **C9, witness**: instantiated with LED and button both on pin
    `DEV_SWITCH_4`. -/
theorem C9_witness :
    programming_mode_init DEV_SWITCH_4 DEV_SWITCH_4 = [] ∧
    ∀ btn : Nat, reset_init btn ≠ [] :=
  C9_alias_noop DEV_SWITCH_4 DEV_SWITCH_4 rfl

end KnxDev
